import Mathlib

/-!
Verification development for the static-site generator `scripts/generate.js`
(the AI-pipeline version: cache, metadata classifier, changelog narrator,
per-repository aggregation loop, and the HTML assemblers).

JavaScript values that matter to the pipeline are embedded as follows:
machine JSON values become the inductive `Json`; JS truthiness becomes
`jsTruthy`; the mutable cache object becomes an association list updated by
prepending (lookup finds the most recent binding, which models JS property
overwrite); the generative service (`poeApiCall`) is a parameter of type
`Option String` (`none` models a failed call / `null` result); `JSON.parse`
is an abstract parameter `jparse : String → Option Json` (`none` models a
thrown `SyntaxError`); thrown-and-uncaught JS exceptions become
`Except.error`.
-/

namespace GenSite

/-- Embedded JSON values, as produced by `JSON.parse` and stored in the
`ai_cache.json` cache object. -/
inductive Json where
  | null : Json
  | bool : Bool → Json
  | num : Int → Json
  | str : String → Json
  | arr : List Json → Json
  | obj : List (String × Json) → Json

/-- JS truthiness of an embedded value (`undefined` is modelled by an
absent `Option`, see `cacheHit`). -/
def jsTruthy : Json → Bool
  | Json.null => false
  | Json.bool b => b
  | Json.num n => n != 0
  | Json.str s => s != ""
  | Json.arr _ => true
  | Json.obj _ => true

mutual

/-- JS `String(v)` / template-literal display of an embedded value. -/
def jsDisplay : Json → String
  | Json.null => "null"
  | Json.bool b => if b then "true" else "false"
  | Json.num n => toString n
  | Json.str s => s
  | Json.arr xs => jsDisplayList xs
  | Json.obj _ => "[object Object]"

/-- JS `Array.prototype.toString`: elements joined by commas, with
`null` elements displayed as the empty string. -/
def jsDisplayList : List Json → String
  | [] => ""
  | [x] => jsDisplayElem x
  | x :: y :: xs => jsDisplayElem x ++ "," ++ jsDisplayList (y :: xs)

/-- Display of a single array element (JS renders `null` as empty here). -/
def jsDisplayElem : Json → String
  | Json.null => ""
  | j => jsDisplay j

end

/-- JS template interpolation of a possibly-absent property
(`undefined` prints as the string "undefined"). -/
def jsInterp : Option Json → String
  | none => "undefined"
  | some j => jsDisplay j

/-- Property access `o.k` on an embedded value: `some` on an object that
has the field, `none` (JS `undefined`) otherwise.  Caveat: JS property
access on `null` throws a `TypeError` instead of yielding `undefined`;
this model collapses that case, so theorems whose conclusion runs a
template over a possibly-null value carry an explicit non-null
hypothesis. -/
def getField : Json → String → Option Json
  | Json.obj fs, k => (fs.find? (fun p => p.1 == k)).map (fun p => p.2)
  | _, _ => none

/-- The in-memory cache object: string keys to JSON values.  The most
recent binding (written by `cacheSet`) shadows older ones. -/
abbrev Cache := List (String × Json)

/-- `cache[k]` as an optional value (`none` = JS `undefined`). -/
def cacheGet (cache : Cache) (k : String) : Option Json :=
  (cache.find? (fun p => p.1 == k)).map (fun p => p.2)

/-- `cache[k] = v` (property assignment). -/
def cacheSet (cache : Cache) (k : String) (v : Json) : Cache :=
  (k, v) :: cache

/-- The guard `if (cache[key]) return cache[key]` from `getProjectMetadata`
and `getReleasePost`: a hit requires the stored value to be JS-truthy. -/
def cacheHit (cache : Cache) (k : String) : Option Json :=
  match cacheGet cache k with
  | some v => if jsTruthy v then some v else none
  | none => none

/-- A repository record, with the fields `generate.js` consumes. -/
structure Repo where
  id : Nat
  name : String
  description : Option String
  language : Option String
  stargazers_count : Nat
  html_url : String
  fork : Bool

/-- A release record, with the fields `generate.js` consumes. -/
structure Release where
  id : Nat
  tag_name : String
  published_at : String
  body : String
  zipball_url : String

/-- The opening-brace character (code point 123). -/
def lbrace : Char := Char.ofNat 123

/-- The closing-brace character (code point 125). -/
def rbrace : Char := Char.ofNat 125

/-- Index of the first occurrence of a character in a list, if any. -/
def firstIdxOf (c : Char) : List Char → Option Nat
  | [] => none
  | a :: as => if a = c then some 0 else (firstIdxOf c as).map (fun n => n + 1)

/-- Index of the last occurrence of a character in a list, if any. -/
def lastIdxOf (c : Char) (l : List Char) : Option Nat :=
  (firstIdxOf c l.reverse).map (fun k => l.length - 1 - k)

/-- The regex match `content.match(/\x7b[\s\S]*\x7d/)` from
`getProjectMetadata`: greedily matches from the first opening brace to the
last closing brace, provided the latter comes strictly after the former. -/
def extractBraces (s : String) : Option String :=
  let cs := s.data
  match firstIdxOf lbrace cs, lastIdxOf rbrace cs with
  | some i, some j => if i < j then some (String.mk ((cs.drop i).take (j + 1 - i))) else none
  | _, _ => none

/-- The parse attempt in `getProjectMetadata`:
`jsonMatch ? JSON.parse(jsonMatch[0]) : JSON.parse(content)`, with a
`none` result standing for the caught parse exception. -/
def tryParseMeta (jparse : String → Option Json) (content : String) : Option Json :=
  match extractBraces content with
  | some m => jparse m
  | none => jparse content

/-- `meta_${repo.id}`, the classifier cache key. -/
def metaCacheKey (repo : Repo) : String := "meta_" ++ toString repo.id

/-- `post_${release.id}`, the narrator cache key. -/
def postCacheKey (release : Release) : String := "post_" ++ toString release.id

/-- The fallback metadata object
`{ category: 'Outils', description_fr: repo.description }` (note: the raw
description field, `null` when the repository has none). -/
def fallbackMeta (repo : Repo) : Json :=
  Json.obj [("category", Json.str "Outils"),
            ("description_fr", match repo.description with
                               | some s => Json.str s
                               | none => Json.null)]

/-- The five category labels enumerated in the classifier prompt
(`generate.js` line 236); "Outils" is the fallback default. -/
def categories : List String :=
  ["Gravity Forms", "IA", "Wordpress", "Outils", "Données"]

/-- `getProjectMetadata(repo, model, cache)`.  `svc` is the outcome of the
`poeApiCall` that would be made (`none` = failure/`null`), `jparse` the
`JSON.parse` oracle.  Returns the produced metadata value, the updated
cache, and the number of service invocations made. -/
def getProjectMetadata (jparse : String → Option Json) (svc : Option String)
    (repo : Repo) (cache : Cache) : Json × Cache × Nat :=
  match cacheHit cache (metaCacheKey repo) with
  | some v => (v, cache, 0)
  | none =>
    match svc with
    | none => (fallbackMeta repo, cache, 1)
    | some content =>
      if content = "" then (fallbackMeta repo, cache, 1)
      else
        match tryParseMeta jparse content with
        | some json => (json, cacheSet cache (metaCacheKey repo) json, 1)
        | none => (fallbackMeta repo, cache, 1)

/-- `getReleasePost(repo, release, model, cache)`: returns the cached or
freshly generated post content (`Json.null` models the `null` return),
the updated cache, and the number of service invocations made.  The
repository only feeds the prompt, which is abstracted into `svc`. -/
def getReleasePost (svc : Option String) (release : Release) (cache : Cache) :
    Json × Cache × Nat :=
  match cacheHit cache (postCacheKey release) with
  | some v => (v, cache, 0)
  | none =>
    match svc with
    | none => (Json.null, cache, 1)
    | some content =>
      if content = "" then (Json.null, cache, 1)
      else (Json.str content, cacheSet cache (postCacheKey release) (Json.str content), 1)

/-- One entry of the `blogPosts` array assembled in `main`. -/
structure BlogPost where
  version : String
  date : String
  content : Json
  downloadUrl : String

/-- The `for (const release of releases)` loop in `main`: narrate each
release in order, keep only truthy results, thread the cache, and count
service invocations. -/
def buildBlogPosts (postSvc : Nat → Option String) :
    List Release → Cache → List BlogPost × Cache × Nat
  | [], cache => ([], cache, 0)
  | r :: rs, cache =>
    let step := getReleasePost (postSvc r.id) r cache
    let rest := buildBlogPosts postSvc rs step.2.1
    (if jsTruthy step.1 then
       { version := r.tag_name, date := r.published_at,
         content := step.1, downloadUrl := r.zipball_url } :: rest.1
     else rest.1,
     rest.2.1, step.2.2 + rest.2.2)

/-- `aiMeta.description_fr || repo.description || 'Projet personnel'`
(first JS-truthy of the three). -/
def cardDesc (repo : Repo) (aiMeta : Json) : String :=
  match getField aiMeta "description_fr" with
  | some d =>
    if jsTruthy d then jsDisplay d
    else match repo.description with
         | some s => if s = "" then "Projet personnel" else s
         | none => "Projet personnel"
  | none =>
    match repo.description with
    | some s => if s = "" then "Projet personnel" else s
    | none => "Projet personnel"

/-- The update-page anchor emitted into a card when the repository has a
latest release. -/
def cardUpdateLink (repo : Repo) : String :=
  "<a href=\"blog-" ++ repo.name ++ ".html\" class=\"btn-secondary\">📰 Voir les mises à jour</a>"

/-- The card template up to the `actions` interpolation point. -/
def cardBefore (repo : Repo) (release : Option Release) (cat : String) (aiMeta : Json) : String :=
  "\n  <div class=\"card\" data-category=\"" ++ cat ++ "\">\n    <div class=\"card-header\">\n      <h2><a href=\"" ++ repo.html_url ++ "\" target=\"_blank\">" ++ repo.name ++ "</a></h2>\n      <div class=\"badges\">\n        <span class=\"badge category-badge\">" ++ cat ++ "</span>\n        " ++
  (match release with
   | some r => if r.tag_name = "" then "" else "<span class=\"badge version-badge\">" ++ r.tag_name ++ "</span>"
   | none => "") ++
  "\n      </div>\n    </div>\n    <p class=\"description\">" ++ cardDesc repo aiMeta ++ "</p>\n    <div class=\"actions\">\n       "

/-- The card template after the `actions` interpolation point. -/
def cardAfter (repo : Repo) : String :=
  "\n    </div>\n    <div class=\"meta\">\n      <span>⭐ " ++ toString repo.stargazers_count ++ "</span>\n      " ++
  (match repo.language with
   | some l => if l = "" then "" else "<span>🔧 " ++ l ++ "</span>"
   | none => "") ++
  "\n    </div>\n  </div>"

/-- `buildCard(repo, release, aiMeta)`.  The function dereferences
`aiMeta.category.toLowerCase()` before building the template, so a missing
or non-string `category` raises a `TypeError` (modelled as `Except.error`);
otherwise the card HTML string is produced. -/
def buildCard (repo : Repo) (release : Option Release) (aiMeta : Json) :
    Except String String :=
  match getField aiMeta "category" with
  | some (Json.str cat) =>
    let _categoryClass :=
      String.map (fun ch => if ch.isWhitespace then '-' else ch) (String.map Char.toLower cat)
    Except.ok (cardBefore repo release cat aiMeta ++
               (match release with
                | some _ => cardUpdateLink repo
                | none => "") ++
               cardAfter repo)
  | _ => Except.error "TypeError: cannot read toLowerCase of aiMeta.category"

/-- One `<article>` of a blog page (`posts.map(post => ...)` body in
`generateBlogPage`); `fmtDate` abstracts
`new Date(d).toLocaleDateString('fr-FR', ...)`. -/
def blogArticle (fmtDate : String → String) (post : BlogPost) : String :=
  "\n    <article>\n        <h2>\n            Version " ++ post.version ++ "\n            <span class=\"date\">" ++ fmtDate post.date ++ "</span>\n        </h2>\n        <div class=\"content\">\n            " ++ jsDisplay post.content ++ "\n        </div>\n        " ++
  (if post.downloadUrl = "" then ""
   else "<a href=\"" ++ post.downloadUrl ++ "\" class=\"download-btn\">⬇ Télécharger le code source</a>") ++
  "\n    </article>\n    "

/-- `generateBlogPage(repo, posts, aiMeta)` (braces of the CSS are written
as \x7b / \x7d escapes).  Faithful for every `aiMeta` except JSON `null`,
where the JS function throws a `TypeError` at `aiMeta.description_fr`
while this model renders "undefined" (see `getField`); theorems about a
written blog page therefore assume the metadata is not `null`. -/
def generateBlogPage (fmtDate : String → String) (repo : Repo)
    (posts : List BlogPost) (aiMeta : Json) : String :=
  "<!DOCTYPE html>\n<html lang=\"fr\">\n<head>\n    <meta charset=\"UTF-8\">\n    <meta name=\"viewport\" content=\"width=device-width, initial-scale=1.0\">\n    <title>Blog - " ++ repo.name ++ "</title>\n    <style>\n        :root \x7b --bg: #0d1117; --card-bg: #161b22; --border: #30363d; --text: #c9d1d9; --accent: #58a6ff; \x7d\n        body \x7b font-family: -apple-system, sans-serif; background: var(--bg); color: var(--text); max-width: 800px; margin: 0 auto; padding: 2rem; line-height: 1.6; \x7d\n        header \x7b margin-bottom: 3rem; border-bottom: 1px solid var(--border); padding-bottom: 2rem; \x7d\n        h1 \x7b color: var(--accent); margin-bottom: 0.5rem; \x7d\n        .back-link \x7b color: var(--text); text-decoration: none; opacity: 0.7; font-size: 0.9rem; \x7d\n        .back-link:hover \x7b opacity: 1; text-decoration: underline; \x7d\n        \n        article \x7b background: var(--card-bg); border: 1px solid var(--border); border-radius: 12px; padding: 2rem; margin-bottom: 2rem; \x7d\n        article h2 \x7b color: white; margin-bottom: 0.5rem; display: flex; justify-content: space-between; align-items: center; \x7d\n        .date \x7b font-size: 0.85rem; color: #8b949e; font-weight: normal; \x7d\n        .content \x7b margin-top: 1.5rem; \x7d\n        .content ul \x7b padding-left: 1.5rem; \x7d\n        .download-btn \x7b display: inline-block; margin-top: 1.5rem; background: #238636; color: white; text-decoration: none; padding: 0.5rem 1rem; border-radius: 6px; font-size: 0.9rem; \x7d\n        .download-btn:hover \x7b background: #2ea043; \x7d\n    </style>\n</head>\n<body>\n    <a href=\"index.html\" class=\"back-link\">← Retour aux projets</a>\n    <header>\n        <h1>" ++ repo.name ++ "</h1>\n        <p>" ++ jsInterp (getField aiMeta "description_fr") ++ "</p>\n        <span style=\"background: #30363d; padding: 2px 8px; border-radius: 10px; font-size: 0.8rem; margin-top: 10px; display: inline-block;\">" ++ jsInterp (getField aiMeta "category") ++ "</span>\n    </header>\n\n    " ++ String.join (posts.map (blogArticle fmtDate)) ++ "\n</body>\n</html>"

mutual

/-- Structural equality of embedded JSON values (used to model the `Set`
dedup of categories in `generateIndexPage`). -/
def jsonBeq : Json → Json → Bool
  | Json.null, Json.null => true
  | Json.bool a, Json.bool b => a == b
  | Json.num a, Json.num b => a == b
  | Json.str a, Json.str b => a == b
  | Json.arr a, Json.arr b => jsonListBeq a b
  | Json.obj a, Json.obj b => jsonObjBeq a b
  | _, _ => false

def jsonListBeq : List Json → List Json → Bool
  | [], [] => true
  | a :: as, b :: bs => jsonBeq a b && jsonListBeq as bs
  | _, _ => false

def jsonObjBeq : List (String × Json) → List (String × Json) → Bool
  | [], [] => true
  | a :: as, b :: bs => (a.1 == b.1 && jsonBeq a.2 b.2) && jsonObjBeq as bs
  | _, _ => false

end

/-- Equality on possibly-absent category values. -/
def optJsonBeq (a b : Option Json) : Bool :=
  match a, b with
  | none, none => true
  | some x, some y => jsonBeq x y
  | _, _ => false

/-- `[...new Set(xs)]`: keep the first occurrence of each value. -/
def dedupCats : List (Option Json) → List (Option Json)
  | [] => []
  | c :: cs => c :: (dedupCats cs).filter (fun d => !optJsonBeq d c)

/-- JS default `Array.prototype.sort` comparison on category values:
string comparison of their displays, with `undefined` always last. -/
def catLe (a b : Option Json) : Bool :=
  match a, b with
  | none, none => true
  | none, some _ => false
  | some _, none => true
  | some x, some y => decide (jsDisplay x ≤ jsDisplay y)

/-- Insertion step of the category sort. -/
def insertCat (a : Option Json) : List (Option Json) → List (Option Json)
  | [] => [a]
  | b :: bs => if catLe a b then a :: b :: bs else b :: insertCat a bs

/-- `.sort()` on the deduplicated categories. -/
def sortCats : List (Option Json) → List (Option Json)
  | [] => []
  | c :: cs => insertCat c (sortCats cs)

/-- The transient per-repository aggregate pushed onto `projects` in
`main`: `{ repo, latestRelease, aiMeta }`. -/
structure Project where
  repo : Repo
  latestRelease : Option Release
  aiMeta : Json

/-- One filter button of the index page. -/
def filterButton (c : Option Json) : String :=
  "<button class=\"filter-btn\" data-cat=\"" ++ jsInterp c ++ "\" onclick=\"filter(\x27" ++ jsInterp c ++ "\x27)\">" ++ jsInterp c ++ "</button>"

/-- `projects.map(p => buildCard(p.repo, p.latestRelease, p.aiMeta))`:
cards are built left to right and the first thrown `TypeError`
propagates. -/
def buildCards : List Project → Except String (List String)
  | [] => Except.ok []
  | p :: ps =>
    match buildCard p.repo p.latestRelease p.aiMeta with
    | Except.error e => Except.error e
    | Except.ok c =>
      match buildCards ps with
      | Except.error e => Except.error e
      | Except.ok cs => Except.ok (c :: cs)

/-- `generateIndexPage(projects)`; `today` abstracts
`new Date().toLocaleDateString('fr-FR')`.  A `TypeError` thrown by
`buildCard` propagates (no card list, no document). -/
def generateIndexPage (today : String) (projects : List Project) :
    Except String String :=
  let cats := sortCats (dedupCats (projects.map (fun p => getField p.aiMeta "category")))
  match buildCards projects with
  | Except.error e => Except.error e
  | Except.ok cards =>
    Except.ok ("<!DOCTYPE html>\n<html lang=\"fr\">\n<head>\n  <meta charset=\"UTF-8\">\n  <meta name=\"viewport\" content=\"width=device-width, initial-scale=1.0\">\n  <title>Activités & Projets - guilamu</title>\n  <style>\n    :root \x7b --bg: #0d1117; --card-bg: #161b22; --border: #30363d; --text: #c9d1d9; --accent: #58a6ff; --badge-bg: #1f6feb; \x7d\n    * \x7b box-sizing: border-box; margin: 0; padding: 0; \x7d\n    body \x7b font-family: -apple-system, BlinkMacSystemFont, \"Segoe UI\", Roboto, Helvetica, Arial, sans-serif; background: var(--bg); color: var(--text); line-height: 1.6; padding: 2rem; \x7d\n    h1 \x7b text-align: center; margin-bottom: 2rem; color: var(--accent); \x7d\n    \n    /* Filters */\n    .filters \x7b display: flex; justify-content: center; gap: 0.5rem; flex-wrap: wrap; margin-bottom: 2rem; \x7d\n    .filter-btn \x7b background: var(--card-bg); border: 1px solid var(--border); color: var(--text); padding: 0.5rem 1rem; border-radius: 20px; cursor: pointer; transition: all 0.2s; \x7d\n    .filter-btn:hover, .filter-btn.active \x7b background: var(--accent); color: white; border-color: var(--accent); \x7d\n    \n    /* Grid */\n    .grid \x7b display: grid; grid-template-columns: repeat(auto-fill, minmax(350px, 1fr)); gap: 1.5rem; \x7d\n    \n    /* Card */\n    .card \x7b background: var(--card-bg); border: 1px solid var(--border); border-radius: 12px; padding: 1.5rem; display: flex; flex-direction: column; gap: 1rem; transition: transform 0.2s; \x7d\n    .card:hover \x7b transform: translateY(-2px); border-color: var(--accent); \x7d\n    \n    .card-header \x7b display: flex; justify-content: space-between; align-items: start; gap: 1rem; \x7d\n    .card h2 \x7b font-size: 1.25rem; margin: 0; \x7d\n    .card h2 a \x7b color: var(--accent); text-decoration: none; \x7d\n    .card h2 a:hover \x7b text-decoration: underline; \x7d\n    \n    .badges \x7b display: flex; flex-direction: column; align-items: flex-end; gap: 0.25rem; \x7d\n    .badge \x7b font-size: 0.75rem; padding: 2px 8px; border-radius: 10px; white-space: nowrap; \x7d\n    .category-badge \x7b background: #30363d; color: #8b949e; border: 1px solid #6e7681; \x7d\n    .version-badge \x7b background: #238636; color: white; \x7d\n    \n    .description \x7b color: #8b949e; font-size: 0.95rem; flex-grow: 1; \x7d\n    \n    .actions \x7b display: flex; gap: 0.5rem; margin-top: auto; \x7d\n    .btn-secondary \x7b background: transparent; border: 1px solid var(--border); color: var(--accent); text-decoration: none; padding: 0.5rem 1rem; border-radius: 6px; font-size: 0.9rem; width: 100%; text-align: center; transition: background 0.2s; \x7d\n    .btn-secondary:hover \x7b background: rgba(88, 166, 255, 0.1); \x7d\n    \n    .meta \x7b display: flex; justify-content: space-between; font-size: 0.8rem; color: #6e7681; padding-top: 1rem; border-top: 1px solid var(--border); margin-top: 1rem; \x7d\n    \n    footer \x7b text-align: center; margin-top: 4rem; color: #6e7681; font-size: 0.8rem; \x7d\n  </style>\n  <script>\n    function filter(category) \x7b\n        document.querySelectorAll(\x27.filter-btn\x27).forEach(b => b.classList.remove(\x27active\x27));\n        document.querySelector(\x60button[data-cat=\"$\x7bcategory\x7d\"]\x60).classList.add(\x27active\x27);\n        \n        const cards = document.querySelectorAll(\x27.card\x27);\n        cards.forEach(card => \x7b\n            if (category === \x27All\x27 || card.dataset.category === category) \x7b\n                card.style.display = \x27flex\x27;\n            \x7d else \x7b\n                card.style.display = \x27none\x27;\n            \x7d\n        \x7d);\n    \x7d\n  </script>\n</head>\n<body>\n  <h1>🚀 Labo & Projets</h1>\n  \n  <div class=\"filters\">\n    <button class=\"filter-btn active\" data-cat=\"All\" onclick=\"filter(\x27All\x27)\">Tout</button>\n    " ++ String.join (cats.map filterButton) ++ "\n  </div>\n\n  <div class=\"grid\">\n    " ++ String.intercalate "\n" cards ++ "\n  </div>\n\n  <footer>\n    Généré avec ❤️ par une IA (Claude Sonnet) et GitHub Actions.<br>\n    Dernière màj: " ++ today ++ "\n  </footer>\n</body>\n</html>")

/-- External behaviour surrounding one repository iteration of `main`:
the outcome of the releases fetch (`Except.error` = the caught `apiGet`
throw), the generative responses for the metadata prompt and for each
release's narration prompt (keyed by release id), and whether
`fs.writeFileSync` of the blog page would throw. -/
structure RepoEnv where
  fetchReleases : Except String (List Release)
  metaSvc : Option String
  postSvc : Nat → Option String
  writeFails : Bool

/-- The `try/catch` around the releases fetch in `main`: a caught throw
degrades to the empty release list. -/
def fetchedReleases (env : RepoEnv) : List Release :=
  match env.fetchReleases with
  | Except.ok rs => rs
  | Except.error _ => []

/-- One iteration of the `for (const repo of repos)` loop in `main`.
Only the releases fetch is inside a `try/catch` (degrading to `[]`);
a throwing blog-page write propagates as `Except.error`.  Returns the
pushed `Project`, the files written for this repository, and the cache. -/
def processRepo (jparse : String → Option Json) (fmtDate : String → String)
    (env : RepoEnv) (repo : Repo) (cache : Cache) :
    Except String (Project × List (String × String) × Cache) :=
  let releases := fetchedReleases env
  let meta := getProjectMetadata jparse env.metaSvc repo cache
  let posts := buildBlogPosts env.postSvc releases meta.2.1
  let project : Project := { repo := repo, latestRelease := releases.head?, aiMeta := meta.1 }
  if posts.1.isEmpty then Except.ok (project, [], posts.2.1)
  else if env.writeFails then Except.error "EACCES: blog page write failed"
  else Except.ok (project,
                  [("blog-" ++ repo.name ++ ".html", generateBlogPage fmtDate repo posts.1 meta.1)],
                  posts.2.1)

/-- The whole repository loop of `main`: an uncaught `Except.error` in one
iteration aborts the rest (there is no per-repository `try/catch`). -/
def mainLoop (jparse : String → Option Json) (fmtDate : String → String) :
    List (Repo × RepoEnv) → Cache →
    Except String (List Project × List (String × String) × Cache)
  | [], cache => Except.ok ([], [], cache)
  | (repo, env) :: rest, cache =>
    match processRepo jparse fmtDate env repo cache with
    | Except.error e => Except.error e
    | Except.ok out =>
      match mainLoop jparse fmtDate rest out.2.2 with
      | Except.error e => Except.error e
      | Except.ok outs => Except.ok (out.1 :: outs.1, out.2.1 ++ outs.2.1, outs.2.2)

/-- Reading a cache object out of the parsed cache-file JSON: a JS object
yields its properties.  The non-object branch is a modelling convenience
outside every theorem's domain (in JS such a value is carried along and
only misbehaves at the first cache access). -/
def cacheEntries : Json → Cache
  | Json.obj fs => fs
  | _ => []

/-- `loadCache()`: a missing file (`none`) yields the empty object; an
existing file is fed straight to `JSON.parse`, whose `SyntaxError` on
corrupt text is NOT caught and propagates (`Except.error`). -/
def loadCache (jparse : String → Option Json) (file : Option String) :
    Except String Cache :=
  match file with
  | none => Except.ok []
  | some text =>
    match jparse text with
    | some j => Except.ok (cacheEntries j)
    | none => Except.error "JSON.parse raised on corrupt cache file"

/-- `main()` end to end: load the cache, run the repository loop over the
non-fork repositories, then build and write the index page.  The result
lists the projects, the final cache (persisted by `saveCache`), and the
files written; any uncaught exception surfaces as `Except.error` (the
`main().catch(console.error)` top level, aborting the run). -/
def mainRun (jparse : String → Option Json) (fmtDate : String → String)
    (today : String) (repoEnvs : List (Repo × RepoEnv)) (file : Option String) :
    Except String (List Project × Cache × List (String × String)) :=
  match loadCache jparse file with
  | Except.error e => Except.error e
  | Except.ok cache =>
    match mainLoop jparse fmtDate (repoEnvs.filter (fun p => !p.1.fork)) cache with
    | Except.error e => Except.error e
    | Except.ok out =>
      match generateIndexPage today out.1 with
      | Except.error e => Except.error e
      | Except.ok html => Except.ok (out.1, out.2.2, out.2.1 ++ [("index.html", html)])

/-- The three "no content" outcomes of the classifier's generative call,
as `getProjectMetadata` distinguishes them: a failed call (`null`), empty
content, or content whose JSON extraction/parse throws. -/
def genFails (jparse : String → Option Json) (svc : Option String) : Prop :=
  svc = none ∨ svc = some "" ∨ ∃ c, svc = some c ∧ c ≠ "" ∧ tryParseMeta jparse c = none

/-! Concrete fixtures used by the counterexamples and witnesses. -/

/-- A `JSON.parse` oracle that rejects every input (models parse throwing
on the strings the scenarios feed it). -/
def jparseNone : String → Option Json := fun _ => none

/-- Fixture: a non-fork repository with a description. -/
def repoA : Repo :=
  { id := 1, name := "alpha-tool", description := some "Un outil", language := some "JavaScript",
    stargazers_count := 5, html_url := "https://github.com/guilamu/alpha-tool", fork := false }

/-- Fixture: a non-fork repository without a description. -/
def repoNoDesc : Repo :=
  { id := 2, name := "beta-tool", description := none, language := none,
    stargazers_count := 0, html_url := "https://github.com/guilamu/beta-tool", fork := false }

/-- Fixture: a chatty-service reply that is a JSON object whose category
is outside the five-label vocabulary. -/
def c1content : String :=
  "\x7b\"category\":\"Bogus\",\"description_fr\":\"Un outil magique\"\x7d"

/-- The value `JSON.parse` yields on `c1content`. -/
def c1json : Json :=
  Json.obj [("category", Json.str "Bogus"), ("description_fr", Json.str "Un outil magique")]

/-- A `JSON.parse` oracle defined on exactly the fixture reply. -/
def c1parse : String → Option Json := fun s => if s = c1content then some c1json else none

/-- A `JSON.parse` oracle that (like `JSON.parse`) maps "null" to the JSON
null value and is fed nothing else. -/
def jparseNull : String → Option Json := fun s => if s = "null" then some Json.null else none

/-- Fixture repository for the falsy-cache-entry scenario. -/
def repo7 : Repo :=
  { id := 7, name := "gamma-tool", description := some "d", language := none,
    stargazers_count := 1, html_url := "https://github.com/guilamu/gamma-tool", fork := false }

/-- Fixtures: three repositories for the skip-and-continue scenario. -/
def r3A : Repo :=
  { id := 11, name := "A", description := some "a", language := none,
    stargazers_count := 0, html_url := "https://github.com/guilamu/A", fork := false }

/-- Second of the three skip-and-continue repositories. -/
def r3B : Repo :=
  { id := 12, name := "B", description := some "b", language := none,
    stargazers_count := 0, html_url := "https://github.com/guilamu/B", fork := false }

/-- Third of the three skip-and-continue repositories. -/
def r3C : Repo :=
  { id := 13, name := "C", description := some "c", language := none,
    stargazers_count := 0, html_url := "https://github.com/guilamu/C", fork := false }

/-- An environment where everything degrades gracefully: no releases,
no generative service. -/
def envOk : RepoEnv :=
  { fetchReleases := Except.ok [], metaSvc := none, postSvc := fun _ => none, writeFails := false }

/-- An environment whose releases fetch throws (the caught branch). -/
def envFetchErr : RepoEnv :=
  { fetchReleases := Except.error "GitHub API Error: 500 Internal Server Error",
    metaSvc := none, postSvc := fun _ => none, writeFails := false }

/-- Fixture release for the write-failure and narration scenarios. -/
def relW : Release :=
  { id := 100, tag_name := "v1.0.0", published_at := "2024-01-01T00:00:00Z",
    body := "- fix", zipball_url := "https://api.github.com/repos/guilamu/A/zipball/v1.0.0" }

/-- An environment where narration succeeds but the blog-page write
throws. -/
def envWriteFail : RepoEnv :=
  { fetchReleases := Except.ok [relW], metaSvc := none,
    postSvc := fun _ => some "<p>Nouvelle version</p>", writeFails := true }

/-- Fixture release for the verbatim-narration counterexample. -/
def rel5 : Release :=
  { id := 50, tag_name := "v2.0.0", published_at := "2024-02-01T00:00:00Z",
    body := "- feat", zipball_url := "https://api.github.com/repos/guilamu/x/zipball/v2.0.0" }

/-- Fixture repository for the narration partial-failure scenario. -/
def repo6 : Repo :=
  { id := 6, name := "zeta-tool", description := some "z", language := some "PHP",
    stargazers_count := 3, html_url := "https://github.com/guilamu/zeta-tool", fork := false }

/-- First (most recent) release of `repo6`; its narration succeeds. -/
def r61 : Release :=
  { id := 61, tag_name := "v1.1.0", published_at := "2024-03-02T00:00:00Z",
    body := "- neuf", zipball_url := "https://api.github.com/repos/guilamu/zeta-tool/zipball/v1.1.0" }

/-- Second release of `repo6`; its narration fails. -/
def r62 : Release :=
  { id := 62, tag_name := "v1.0.0", published_at := "2024-03-01T00:00:00Z",
    body := "- vieux", zipball_url := "https://api.github.com/repos/guilamu/zeta-tool/zipball/v1.0.0" }

/-- Environment for `repo6`: narration succeeds for release 61 only. -/
def env6 : RepoEnv :=
  { fetchReleases := Except.ok [r61, r62], metaSvc := none,
    postSvc := fun n => if n = 61 then some "<p>Quoi de neuf</p>" else none,
    writeFails := false }

/-- Fixture repository for the dangling-update-link counterexample. -/
def repoX : Repo :=
  { id := 70, name := "delta-tool", description := some "d", language := none,
    stargazers_count := 2, html_url := "https://github.com/guilamu/delta-tool", fork := false }

/-- The fetched release of `repoX` (whose narration will fail). -/
def relX : Release :=
  { id := 71, tag_name := "v0.1.0", published_at := "2024-04-01T00:00:00Z",
    body := "- init", zipball_url := "https://api.github.com/repos/guilamu/delta-tool/zipball/v0.1.0" }

/-- Environment for `repoX`: one release, all narration fails. -/
def envX : RepoEnv :=
  { fetchReleases := Except.ok [relX], metaSvc := none, postSvc := fun _ => none,
    writeFails := false }

/-- Fixture repository for the missing-category scenario. -/
def repoX2 : Repo :=
  { id := 80, name := "epsilon-tool", description := some "e", language := none,
    stargazers_count := 0, html_url := "https://github.com/guilamu/epsilon-tool", fork := false }

/-- A parsed service reply that is a JSON object without a `category`. -/
def metaNoCat : Json := Json.obj [("description_fr", Json.str "desc")]

/-- The raw service reply parsed to `metaNoCat`. -/
def c10content : String := "\x7b\"description_fr\":\"desc\"\x7d"

/-- A `JSON.parse` oracle defined on exactly `c10content`. -/
def jparse10 : String → Option Json := fun s => if s = c10content then some metaNoCat else none

/-- Environment for `repoX2`: the classifier call returns the
category-less object. -/
def env10 : RepoEnv :=
  { fetchReleases := Except.ok [], metaSvc := some c10content, postSvc := fun _ => none,
    writeFails := false }

/-! Helper lemmas shared by the claim theorems. -/

/-- A freshly assigned cache key is found by lookup. -/
theorem cacheGet_set_self (cache : Cache) (k : String) (v : Json) :
    cacheGet (cacheSet cache k v) k = some v := by
  simp [cacheGet, cacheSet, List.find?]

/-- A freshly assigned truthy value is a cache hit. -/
theorem cacheHit_set_self (cache : Cache) (k : String) (v : Json)
    (hv : jsTruthy v = true) :
    cacheHit (cacheSet cache k v) k = some v := by
  simp [cacheHit, cacheGet_set_self, hv]

/-- A truthy cached metadata entry is returned as-is, without a service
call. -/
theorem meta_hit (jparse : String → Option Json) (svc : Option String) (repo : Repo)
    (cache : Cache) (v : Json) (h : cacheHit cache (metaCacheKey repo) = some v) :
    getProjectMetadata jparse svc repo cache = (v, cache, 0) := by
  simp [getProjectMetadata, h]

/-- On a cache miss, any of the three no-content outcomes produces the
fallback metadata and leaves the cache untouched. -/
theorem meta_fails (jparse : String → Option Json) (svc : Option String) (repo : Repo)
    (cache : Cache) (h : cacheHit cache (metaCacheKey repo) = none)
    (hf : genFails jparse svc) :
    getProjectMetadata jparse svc repo cache = (fallbackMeta repo, cache, 1) := by
  rcases hf with rfl | rfl | ⟨c, rfl, hc, hp⟩
  · simp [getProjectMetadata, h]
  · simp [getProjectMetadata, h]
  · simp [getProjectMetadata, h, hc, hp]

/-- On a cache miss with parsable content, the parsed JSON is returned
as-is and stored. -/
theorem meta_success (jparse : String → Option Json) (repo : Repo) (cache : Cache)
    (c : String) (j : Json) (h : cacheHit cache (metaCacheKey repo) = none)
    (hc : c ≠ "") (hp : tryParseMeta jparse c = some j) :
    getProjectMetadata jparse (some c) repo cache =
      (j, cacheSet cache (metaCacheKey repo) j, 1) := by
  simp [getProjectMetadata, h, hc, hp]

/-- A failed or empty narration yields `null` and leaves the cache
untouched. -/
theorem post_fails (svc : Option String) (release : Release) (cache : Cache)
    (h : cacheHit cache (postCacheKey release) = none)
    (hf : svc = none ∨ svc = some "") :
    getReleasePost svc release cache = (Json.null, cache, 1) := by
  rcases hf with rfl | rfl <;> simp [getReleasePost, h]

/-- A non-empty narration is returned verbatim and cached verbatim. -/
theorem post_success (c : String) (release : Release) (cache : Cache)
    (h : cacheHit cache (postCacheKey release) = none) (hc : c ≠ "") :
    getReleasePost (some c) release cache =
      (Json.str c, cacheSet cache (postCacheKey release) (Json.str c), 1) := by
  simp [getReleasePost, h, hc]

/-- If every project's metadata has a string `category`, every card
builds. -/
theorem buildCards_ok (projects : List Project)
    (hall : ∀ p ∈ projects, ∃ s, getField p.aiMeta "category" = some (Json.str s)) :
    ∃ cards, buildCards projects = Except.ok cards := by
  induction projects with
  | nil => exact ⟨[], rfl⟩
  | cons p ps ih =>
    obtain ⟨s, hs⟩ := hall p (List.mem_cons_self p ps)
    obtain ⟨cs, hcs⟩ := ih (fun q hq => hall q (List.mem_cons_of_mem p hq))
    cases hb : buildCard p.repo p.latestRelease p.aiMeta with
    | error e => exfalso; simp [buildCard, hs] at hb
    | ok c => exact ⟨c :: cs, by simp [buildCards, hb, hcs]⟩

/-! The claims. -/

/-- C1 (counterexample).  `getProjectMetadata` does not filter the
category against the five-label vocabulary: a service reply whose JSON
carries the out-of-vocabulary category "Bogus" is returned as-is. -/
theorem claim1_counterexample :
    (getProjectMetadata c1parse (some c1content) repoA []).1 = c1json ∧
    getField c1json "category" = some (Json.str "Bogus") ∧
    "Bogus" ∉ categories :=
  ⟨rfl, rfl, by decide⟩

/-- C1 (amended).  No vocabulary validation is performed: whenever the
service content parses, the parsed JSON is returned and cached unchanged,
whatever its `category`; only the failure fallback guarantees the
in-vocabulary default category "Outils". -/
theorem claim1_no_vocab_filter (jparse : String → Option Json) (repo : Repo)
    (cache : Cache) (c : String) (j : Json)
    (hmiss : cacheHit cache (metaCacheKey repo) = none)
    (hc : c ≠ "") (hp : tryParseMeta jparse c = some j) :
    getProjectMetadata jparse (some c) repo cache =
      (j, cacheSet cache (metaCacheKey repo) j, 1) ∧
    getField (fallbackMeta repo) "category" = some (Json.str "Outils") ∧
    "Outils" ∈ categories := by
  refine ⟨meta_success _ _ _ _ _ hmiss hc hp, ?_, by decide⟩
  simp [fallbackMeta, getField]

/-- C1 witness: the amended claim evaluated at the fixture reply. -/
theorem claim1_witness :
    getProjectMetadata c1parse (some c1content) repoA [] =
      (c1json, cacheSet [] (metaCacheKey repoA) c1json, 1) ∧
    getField (fallbackMeta repoA) "category" = some (Json.str "Outils") ∧
    "Outils" ∈ categories :=
  claim1_no_vocab_filter c1parse repoA [] c1content c1json rfl (by decide) rfl

/-- C2 (counterexample).  For a repository without a description, the
fallback metadata's `description_fr` is JSON `null` — not the repository
name, and not a non-empty string. -/
theorem claim2_counterexample :
    getProjectMetadata c1parse none repoNoDesc [] = (fallbackMeta repoNoDesc, [], 1) ∧
    getField (fallbackMeta repoNoDesc) "description_fr" = some Json.null ∧
    Json.null ≠ Json.str repoNoDesc.name ∧
    jsTruthy Json.null = false :=
  ⟨rfl, rfl, fun h => Json.noConfusion h, rfl⟩

/-- C2 (amended).  On any of the three failure modes the classifier never
raises and returns the fallback metadata, whose category is the default
"Outils" and whose `description_fr` is the repository's raw description
field: the description string when present, JSON `null` otherwise (no
substitution of the repository name). -/
theorem claim2_fallback_total (jparse : String → Option Json) (svc : Option String)
    (repo : Repo) (cache : Cache)
    (hmiss : cacheHit cache (metaCacheKey repo) = none)
    (hfail : genFails jparse svc) :
    getProjectMetadata jparse svc repo cache = (fallbackMeta repo, cache, 1) ∧
    getField (fallbackMeta repo) "category" = some (Json.str "Outils") ∧
    getField (fallbackMeta repo) "description_fr" =
      some (match repo.description with
            | some s => Json.str s
            | none => Json.null) := by
  refine ⟨meta_fails _ _ _ _ hmiss hfail, ?_, ?_⟩ <;> simp [fallbackMeta, getField]

/-- C2 witness: the amended claim evaluated on a failing service call. -/
theorem claim2_witness :
    getProjectMetadata jparseNone none repoA [] = (fallbackMeta repoA, [], 1) ∧
    getField (fallbackMeta repoA) "category" = some (Json.str "Outils") ∧
    getField (fallbackMeta repoA) "description_fr" = some (Json.str "Un outil") :=
  claim2_fallback_total jparseNone none repoA [] rfl (Or.inl rfl)

/-- C4 (counterexample).  The cache guard tests JS truthiness, not
presence: a service reply "null" parses, is cached and returned, but the
cached `null` entry is falsy, so a second invocation with the primed
cache — whose key is present — invokes the service again (two calls in
total, and the second run's call count is 1, not 0). -/
theorem claim4_counterexample :
    getProjectMetadata jparseNull (some "null") repo7 [] =
      (Json.null, [("meta_7", Json.null)], 1) ∧
    cacheGet [("meta_7", Json.null)] (metaCacheKey repo7) = some Json.null ∧
    (getProjectMetadata jparseNull (some "null") repo7 [("meta_7", Json.null)]).2.2 = 1 :=
  ⟨rfl, rfl, rfl⟩

/-- C4 (amended).  When the cached entry is present AND truthy, classify
returns it unchanged with no service call; and when a first call stores a
truthy parsed object, a second call with the primed cache returns the
identical value with no further service call (one call in total). -/
theorem claim4_truthy_idempotent (jparse : String → Option Json) (svc : Option String)
    (repo : Repo) (cache : Cache) (v : Json) (c : String) (j : Json) :
    (cacheHit cache (metaCacheKey repo) = some v →
       getProjectMetadata jparse svc repo cache = (v, cache, 0)) ∧
    (cacheHit cache (metaCacheKey repo) = none → svc = some c → c ≠ "" →
     tryParseMeta jparse c = some j → jsTruthy j = true →
       getProjectMetadata jparse svc repo cache =
         (j, cacheSet cache (metaCacheKey repo) j, 1) ∧
       getProjectMetadata jparse svc repo (cacheSet cache (metaCacheKey repo) j) =
         (j, cacheSet cache (metaCacheKey repo) j, 0)) := by
  constructor
  · exact fun h => meta_hit _ _ _ _ _ h
  · rintro hmiss rfl hc hp hj
    exact ⟨meta_success _ _ _ _ _ hmiss hc hp,
           meta_hit _ _ _ _ _ (cacheHit_set_self _ _ _ hj)⟩

/-- C4 witness: the amended claim evaluated at the fixture reply. -/
theorem claim4_witness :
    getProjectMetadata c1parse (some c1content) repoA [] =
      (c1json, cacheSet [] (metaCacheKey repoA) c1json, 1) ∧
    getProjectMetadata c1parse (some c1content) repoA (cacheSet [] (metaCacheKey repoA) c1json) =
      (c1json, cacheSet [] (metaCacheKey repoA) c1json, 0) :=
  (claim4_truthy_idempotent c1parse (some c1content) repoA [] Json.null c1content c1json).2
    rfl rfl (by decide) rfl rfl

/-- C5 (counterexample).  Narrated content is returned and cached
verbatim: the reply " bonjour " is returned with its surrounding
whitespace intact (it begins with a space), contradicting the claimed
trimming; no fence stripping happens either, as the returned value is the
raw service string. -/
theorem claim5_counterexample :
    getReleasePost (some " bonjour ") rel5 [] =
      (Json.str " bonjour ", [("post_50", Json.str " bonjour ")], 1) ∧
    (" bonjour ").data.head? = some (Char.ofNat 32) ∧
    (" bonjour " : String) ≠ "bonjour" :=
  ⟨rfl, rfl, by decide⟩

/-- C5 (amended).  A narration that returns non-empty content is cached
and returned verbatim — no fence stripping, no whitespace trimming — and
the returned fragment is non-empty (truthy). -/
theorem claim5_verbatim (svc : Option String) (c : String) (release : Release)
    (cache : Cache)
    (hmiss : cacheHit cache (postCacheKey release) = none)
    (hsvc : svc = some c) (hc : c ≠ "") :
    getReleasePost svc release cache =
      (Json.str c, cacheSet cache (postCacheKey release) (Json.str c), 1) ∧
    jsTruthy (Json.str c) = true := by
  subst hsvc
  refine ⟨post_success _ _ _ hmiss hc, ?_⟩
  simp [jsTruthy, hc]

/-- C5 witness: the amended claim evaluated at a concrete narration. -/
theorem claim5_witness :
    getReleasePost (some "<p>Notes</p>") rel5 [] =
      (Json.str "<p>Notes</p>", cacheSet [] (postCacheKey rel5) (Json.str "<p>Notes</p>"), 1) ∧
    jsTruthy (Json.str "<p>Notes</p>") = true :=
  claim5_verbatim (some "<p>Notes</p>") "<p>Notes</p>" rel5 [] rfl rfl (by decide)

/-- C8 (counterexample).  A corrupt cache file does not yield the empty
cache: `JSON.parse` throws inside `loadCache`, which has no handler, so
the whole run aborts. -/
theorem claim8_counterexample :
    loadCache jparseNone (some "not json at all") =
      Except.error "JSON.parse raised on corrupt cache file" ∧
    mainRun jparseNone id "" [] (some "not json at all") =
      Except.error "JSON.parse raised on corrupt cache file" :=
  ⟨rfl, rfl⟩

/-- C8 (amended).  A missing cache file yields the empty cache, but a
corrupt (unparsable) cache file makes `loadCache` raise, aborting the
run; a parsable object file loads its entries. -/
theorem claim8_missing_vs_corrupt (jparse : String → Option Json) (text : String) :
    loadCache jparse none = Except.ok [] ∧
    (jparse text = none →
       loadCache jparse (some text) =
         Except.error "JSON.parse raised on corrupt cache file") ∧
    (∀ fs, jparse text = some (Json.obj fs) →
       loadCache jparse (some text) = Except.ok fs) := by
  refine ⟨rfl, ?_, ?_⟩
  · intro h; simp [loadCache, h]
  · intro fs h; simp [loadCache, h, cacheEntries]

/-- C8 witness: the amended claim evaluated at a concrete corrupt file. -/
theorem claim8_witness :
    loadCache jparseNone none = Except.ok [] ∧
    loadCache jparseNone (some "oops") =
      Except.error "JSON.parse raised on corrupt cache file" :=
  ⟨(claim8_missing_vs_corrupt jparseNone "oops").1,
   (claim8_missing_vs_corrupt jparseNone "oops").2.1 rfl⟩

/-- C3 (counterexample).  With three repositories where the second's
release fetch throws, the resulting project list contains all THREE
repositories in order — the failing repository is not excluded — so the
claimed "exactly the first and third" is false. -/
theorem claim3_counterexample :
    (mainLoop c1parse id [(r3A, envOk), (r3B, envFetchErr), (r3C, envOk)] []).map
        (fun out => out.1.map (fun p => p.repo.name)) = Except.ok ["A", "B", "C"] ∧
    (["A", "B", "C"] : List String) ≠ ["A", "C"] :=
  ⟨rfl, by decide⟩

/-- C3 (amended).  Only the releases fetch is guarded per repository: a
fetch throw degrades to an empty release list and the repository is still
INCLUDED in the result; but an exception elsewhere in the body (here a
throwing blog-page write) is not caught at the repository boundary and
aborts the entire remaining run. -/
theorem claim3_partial_catch (jparse : String → Option Json) (fmtDate : String → String)
    (env : RepoEnv) (repo : Repo) (cache : Cache) (rest : List (Repo × RepoEnv)) :
    (∀ e, env.fetchReleases = Except.error e →
       processRepo jparse fmtDate env repo cache =
         Except.ok ({ repo := repo, latestRelease := none,
                      aiMeta := (getProjectMetadata jparse env.metaSvc repo cache).1 },
                    [], (getProjectMetadata jparse env.metaSvc repo cache).2.1)) ∧
    (env.writeFails = true →
     (buildBlogPosts env.postSvc (fetchedReleases env)
        (getProjectMetadata jparse env.metaSvc repo cache).2.1).1 ≠ [] →
       mainLoop jparse fmtDate ((repo, env) :: rest) cache =
         Except.error "EACCES: blog page write failed") := by
  constructor
  · intro e he
    simp [processRepo, fetchedReleases, he, buildBlogPosts]
  · intro hw hp
    rcases hq : (buildBlogPosts env.postSvc (fetchedReleases env)
        (getProjectMetadata jparse env.metaSvc repo cache).2.1).1 with _ | ⟨a, as⟩
    · exact absurd hq hp
    · simp [mainLoop, processRepo, hq, hw]

/-- C3 witness: both amended behaviours at concrete inputs — the
fetch-failing repository is kept, and a write failure aborts the loop. -/
theorem claim3_witness :
    processRepo c1parse id envFetchErr r3B [] =
      Except.ok ({ repo := r3B, latestRelease := none, aiMeta := fallbackMeta r3B }, [], []) ∧
    mainLoop c1parse id [(r3A, envWriteFail)] [] =
      Except.error "EACCES: blog page write failed" :=
  ⟨(claim3_partial_catch c1parse id envFetchErr r3B [] []).1
     "GitHub API Error: 500 Internal Server Error" rfl,
   (claim3_partial_catch c1parse id envWriteFail r3A [] []).2 rfl
     (List.cons_ne_nil _ _)⟩

/-- C9 (confirmed).  Cache entries are written only when the service
returned content that was successfully processed: every failure path of
the classifier and the narrator leaves the cache unchanged (so a later
run re-attempts the call, counted again as one invocation), and the
success paths store exactly the processed value. -/
theorem claim9_no_cache_on_failure (jparse : String → Option Json) (svc : Option String)
    (repo : Repo) (release : Release) (cache : Cache)
    (hmM : cacheHit cache (metaCacheKey repo) = none)
    (hmP : cacheHit cache (postCacheKey release) = none) :
    (genFails jparse svc →
       getProjectMetadata jparse svc repo cache = (fallbackMeta repo, cache, 1) ∧
       (getProjectMetadata jparse svc repo
          (getProjectMetadata jparse svc repo cache).2.1).2.2 = 1) ∧
    ((svc = none ∨ svc = some "") →
       getReleasePost svc release cache = (Json.null, cache, 1) ∧
       (getReleasePost svc release (getReleasePost svc release cache).2.1).2.2 = 1) ∧
    (∀ c j, svc = some c → c ≠ "" → tryParseMeta jparse c = some j →
       getProjectMetadata jparse svc repo cache =
         (j, cacheSet cache (metaCacheKey repo) j, 1)) ∧
    (∀ c, svc = some c → c ≠ "" →
       getReleasePost svc release cache =
         (Json.str c, cacheSet cache (postCacheKey release) (Json.str c), 1)) := by
  refine ⟨?_, ?_, ?_, ?_⟩
  · intro hf
    have h1 := meta_fails jparse svc repo cache hmM hf
    refine ⟨h1, ?_⟩
    rw [h1]
    rw [meta_fails jparse svc repo cache hmM hf]
  · intro hf
    have h1 := post_fails svc release cache hmP hf
    refine ⟨h1, ?_⟩
    rw [h1]
    rw [post_fails svc release cache hmP hf]
  · rintro c j rfl hc hp
    exact meta_success _ _ _ _ _ hmM hc hp
  · rintro c rfl hc
    exact post_success _ _ _ hmP hc

/-- C9 witness: the failure conjuncts evaluated on a failed service
call. -/
theorem claim9_witness :
    (getProjectMetadata jparseNone none repo7 [] = (fallbackMeta repo7, [], 1) ∧
     (getProjectMetadata jparseNone none repo7
        (getProjectMetadata jparseNone none repo7 []).2.1).2.2 = 1) ∧
    (getReleasePost none rel5 [] = (Json.null, [], 1) ∧
     (getReleasePost none rel5 (getReleasePost none rel5 []).2.1).2.2 = 1) :=
  ⟨(claim9_no_cache_on_failure jparseNone none repo7 rel5 [] rfl rfl).1 (Or.inl rfl),
   (claim9_no_cache_on_failure jparseNone none repo7 rel5 [] rfl rfl).2.1 (Or.inl rfl)⟩

/-- C6 (confirmed).  When narration succeeds for release R1 but fails for
R2 of the same repository, the assembled post list contains exactly R1's
entry, the written update page is generated from that single entry (R2 is
omitted entirely — no marker, no blank entry), and the failure of R2 does
not block R1's narration.  The classifier metadata is assumed not to be
JSON `null`: that is the one value where the real `generateBlogPage`
throws a `TypeError` (aborting the run before any page is written) while
this embedding would render "undefined", so the hypothesis keeps the
statement inside the model's faithful domain (every other metadata value,
object or primitive, is rendered exactly as JS does). -/
theorem claim6_partial_narration (jparse : String → Option Json) (fmtDate : String → String)
    (env : RepoEnv) (repo : Repo) (cache : Cache) (r1 r2 : Release) (c1 : String)
    (m : Json) (mc : Cache) (k : Nat)
    (hrel : env.fetchReleases = Except.ok [r1, r2])
    (hw : env.writeFails = false)
    (hm : getProjectMetadata jparse env.metaSvc repo cache = (m, mc, k))
    (hnn : m ≠ Json.null)
    (h1miss : cacheHit mc (postCacheKey r1) = none)
    (h1 : env.postSvc r1.id = some c1) (hc1 : c1 ≠ "")
    (h2miss : cacheHit (cacheSet mc (postCacheKey r1) (Json.str c1)) (postCacheKey r2) = none)
    (h2 : env.postSvc r2.id = none)
    (htag : r1.tag_name ≠ r2.tag_name) :
    buildBlogPosts env.postSvc [r1, r2] mc =
      ([{ version := r1.tag_name, date := r1.published_at,
          content := Json.str c1, downloadUrl := r1.zipball_url }],
       cacheSet mc (postCacheKey r1) (Json.str c1), 2) ∧
    processRepo jparse fmtDate env repo cache =
      Except.ok ({ repo := repo, latestRelease := some r1, aiMeta := m },
                 [("blog-" ++ repo.name ++ ".html",
                   generateBlogPage fmtDate repo
                     [{ version := r1.tag_name, date := r1.published_at,
                        content := Json.str c1, downloadUrl := r1.zipball_url }] m)],
                 cacheSet mc (postCacheKey r1) (Json.str c1)) ∧
    (∀ p ∈ (buildBlogPosts env.postSvc [r1, r2] mc).1, p.version ≠ r2.tag_name) := by
  have hs1 := post_success c1 r1 mc h1miss hc1
  have hs2 := post_fails none r2 (cacheSet mc (postCacheKey r1) (Json.str c1)) h2miss (Or.inl rfl)
  have hb : (c1 != "") = true := by simpa using hc1
  have hposts : buildBlogPosts env.postSvc [r1, r2] mc =
      ([{ version := r1.tag_name, date := r1.published_at,
          content := Json.str c1, downloadUrl := r1.zipball_url }],
       cacheSet mc (postCacheKey r1) (Json.str c1), 2) := by
    simp [buildBlogPosts, h1, h2, hs1, hs2, jsTruthy, hb]
  refine ⟨hposts, ?_, ?_⟩
  · simp [processRepo, fetchedReleases, hrel, hm, hposts, hw]
  · intro p hp
    rw [hposts] at hp
    rw [List.mem_singleton] at hp
    subst hp
    exact htag

/-- C6 witness: the scenario evaluated at the `repo6` fixtures (release
61 narrates, release 62 fails). -/
theorem claim6_witness :
    buildBlogPosts env6.postSvc [r61, r62] [] =
      ([{ version := r61.tag_name, date := r61.published_at,
          content := Json.str "<p>Quoi de neuf</p>", downloadUrl := r61.zipball_url }],
       cacheSet [] (postCacheKey r61) (Json.str "<p>Quoi de neuf</p>"), 2) ∧
    processRepo c1parse id env6 repo6 [] =
      Except.ok ({ repo := repo6, latestRelease := some r61, aiMeta := fallbackMeta repo6 },
                 [("blog-" ++ repo6.name ++ ".html",
                   generateBlogPage id repo6
                     [{ version := r61.tag_name, date := r61.published_at,
                        content := Json.str "<p>Quoi de neuf</p>", downloadUrl := r61.zipball_url }]
                     (fallbackMeta repo6))],
                 cacheSet [] (postCacheKey r61) (Json.str "<p>Quoi de neuf</p>")) ∧
    (∀ p ∈ (buildBlogPosts env6.postSvc [r61, r62] []).1, p.version ≠ r62.tag_name) :=
  claim6_partial_narration c1parse id env6 repo6 [] r61 r62 "<p>Quoi de neuf</p>"
    (fallbackMeta repo6) [] 1 rfl rfl rfl (fun h => Json.noConfusion h)
    rfl rfl (by decide) rfl rfl (by decide)

/-- C7 (counterexample).  A repository with a release whose narration
fails gets NO update page (no file written, zero blog posts), yet its
index card still carries the update-page link `blog-delta-tool.html`: the
link tracks the latest release, not the existence of blog posts. -/
theorem claim7_counterexample :
    processRepo jparseNone id envX repoX [] =
      Except.ok ({ repo := repoX, latestRelease := some relX, aiMeta := fallbackMeta repoX },
                 [], []) ∧
    (buildBlogPosts envX.postSvc [relX] []).1 = [] ∧
    buildCard repoX (some relX) (fallbackMeta repoX) =
      Except.ok (cardBefore repoX (some relX) "Outils" (fallbackMeta repoX) ++
                 cardUpdateLink repoX ++ cardAfter repoX) ∧
    cardUpdateLink repoX =
      "<a href=\"blog-delta-tool.html\" class=\"btn-secondary\">📰 Voir les mises à jour</a>" :=
  ⟨rfl, rfl, rfl, rfl⟩

/-- C7 (amended).  The card's update link is emitted exactly when the
project has a latest release (the `actions` slot holds the link for
`some` and the empty string for `none`), while the update-page document
is written exactly when at least one release was successfully narrated;
the two conditions can differ. -/
theorem claim7_link_follows_release (jparse : String → Option Json)
    (fmtDate : String → String) (env : RepoEnv) (repo : Repo) (cache : Cache)
    (r : Release) (m : Json) (mc : Cache) (k : Nat) (cat : String)
    (hm : getProjectMetadata jparse env.metaSvc repo cache = (m, mc, k))
    (hcat : getField m "category" = some (Json.str cat)) :
    buildCard repo (some r) m =
      Except.ok (cardBefore repo (some r) cat m ++ cardUpdateLink repo ++ cardAfter repo) ∧
    buildCard repo none m =
      Except.ok (cardBefore repo none cat m ++ "" ++ cardAfter repo) ∧
    (∀ rels proj files c2,
       env.fetchReleases = Except.ok rels →
       processRepo jparse fmtDate env repo cache = Except.ok (proj, files, c2) →
       proj.latestRelease = rels.head? ∧
       (files = [] ↔ (buildBlogPosts env.postSvc rels mc).1 = [])) := by
  refine ⟨by simp [buildCard, hcat], by simp [buildCard, hcat], ?_⟩
  intro rels proj files c2 hrel hpr
  simp only [processRepo, fetchedReleases, hrel, hm] at hpr
  rcases hq : (buildBlogPosts env.postSvc rels mc).1 with _ | ⟨a, as⟩
  · rw [hq] at hpr
    simp only [List.isEmpty_nil, if_true, Except.ok.injEq, Prod.mk.injEq] at hpr
    obtain ⟨h1, h2, h3⟩ := hpr
    subst h1; subst h2
    exact ⟨rfl, by simp⟩
  · rw [hq] at hpr
    simp only [List.isEmpty_cons, Bool.false_eq_true, if_false] at hpr
    by_cases hw : env.writeFails
    · rw [if_pos hw] at hpr
      exact absurd hpr (by simp)
    · rw [if_neg hw] at hpr
      simp only [Except.ok.injEq, Prod.mk.injEq] at hpr
      obtain ⟨h1, h2, h3⟩ := hpr
      subst h1; subst h2
      exact ⟨rfl, by simp⟩

/-- C7 witness: the amended claim evaluated at the `repoX` fixtures (one
release, narration fails: link present, no page written). -/
theorem claim7_witness :
    buildCard repoX (some relX) (fallbackMeta repoX) =
      Except.ok (cardBefore repoX (some relX) "Outils" (fallbackMeta repoX) ++
                 cardUpdateLink repoX ++ cardAfter repoX) ∧
    ({ repo := repoX, latestRelease := some relX, aiMeta := fallbackMeta repoX } :
        Project).latestRelease = [relX].head? ∧
    (([] : List (String × String)) = [] ↔ (buildBlogPosts envX.postSvc [relX] []).1 = []) :=
  ⟨(claim7_link_follows_release jparseNone id envX repoX [] relX
      (fallbackMeta repoX) [] 1 "Outils" rfl rfl).1,
   ((claim7_link_follows_release jparseNone id envX repoX [] relX
      (fallbackMeta repoX) [] 1 "Outils" rfl rfl).2.2 [relX]
      { repo := repoX, latestRelease := some relX, aiMeta := fallbackMeta repoX }
      [] [] rfl rfl).1,
   ((claim7_link_follows_release jparseNone id envX repoX [] relX
      (fallbackMeta repoX) [] 1 "Outils" rfl rfl).2.2 [relX]
      { repo := repoX, latestRelease := some relX, aiMeta := fallbackMeta repoX }
      [] [] rfl rfl).2⟩

/-- C10 (confirmed).  Index assembly is total exactly when every
project's metadata has a string `category`: with string categories every
card builds and the index document is produced, while a parsed service
object lacking `category` makes `buildCard` throw inside
`generateIndexPage`, and a whole run over such a repository aborts with
no index document written. -/
theorem claim10_missing_category_aborts (projects : List Project) (today : String)
    (hall : ∀ p ∈ projects, ∃ s, getField p.aiMeta "category" = some (Json.str s)) :
    (∃ html, generateIndexPage today projects = Except.ok html) ∧
    generateIndexPage "2024-05-01"
        [{ repo := repoX2, latestRelease := none, aiMeta := metaNoCat }] =
      Except.error "TypeError: cannot read toLowerCase of aiMeta.category" ∧
    mainRun jparse10 id "2024-05-01" [(repoX2, env10)] none =
      Except.error "TypeError: cannot read toLowerCase of aiMeta.category" := by
  refine ⟨?_, rfl, rfl⟩
  obtain ⟨cards, hcards⟩ := buildCards_ok projects hall
  exact ⟨_, by unfold generateIndexPage; rw [hcards]⟩

/-- C10 witness: the theorem applied at the empty project list. -/
theorem claim10_witness :
    (∃ html, generateIndexPage "2024-05-01" ([] : List Project) = Except.ok html) ∧
    generateIndexPage "2024-05-01"
        [{ repo := repoX2, latestRelease := none, aiMeta := metaNoCat }] =
      Except.error "TypeError: cannot read toLowerCase of aiMeta.category" ∧
    mainRun jparse10 id "2024-05-01" [(repoX2, env10)] none =
      Except.error "TypeError: cannot read toLowerCase of aiMeta.category" :=
  claim10_missing_category_aborts [] "2024-05-01"
    (fun p hp => absurd hp (List.not_mem_nil p))

end GenSite
